import Mathlib

/-!
Shallow embedding of `kubevirt-actions-runner` (src/main.rs) in Lean 4,
together with theorems settling the specification claims.

The program launches one KubeVirt `VirtualMachineInstance` (VMI) from a
`VirtualMachine` template, injects GitHub Actions runner bootstrap data,
watches the VMI until a terminal phase, and cleans it up.  The embedding
models:

* the bootstrap payload construction (`buildRunnerInfo`, main.rs 217-259),
* the URL auto-detection (`resolveRunnerUrl`, main.rs 224-247),
* the template-to-VMI spec composition (`composeVmi`, main.rs 292-322),
* the watch-event reduction loop (`wait_for_vmi`, main.rs 374-417),
* the whole `run` orchestration (main.rs 217-371) as a pure function from
  the CLI options, the environment and an oracle `World` describing the
  cluster's responses, to the list of API actions issued plus the result.

Effectful API calls are recorded as `ApiAction`s; machine behaviour that the
code only observes (lookup answers, watch events, signals, call failures)
is supplied by the `World` oracle.
-/

/-- Constant `RUNNER_INFO_ANNOTATION` from main.rs line 19 (the fixed
annotation key under which the serialized runner info is stored). -/
def RUNNER_INFO_ANNOTATION_KEY : String :=
  "li.zhaofeng.kubevirt-actions-runner/runner-info"

/-- Constant `RUNNER_INFO_VOLUME` from main.rs line 20. -/
def RUNNER_INFO_VOLUME : String := "runner-info"

/-- Constant `RUNNER_INFO_PATH` from main.rs line 21. -/
def RUNNER_INFO_PATH : String := "runner-info.json"

/-- `serde_json::Value`: opaque JSON data carried along in specs and
volumes.  Numbers are modelled as integers; no claim inspects numbers. -/
inductive Json where
  | null : Json
  | bool (b : Bool) : Json
  | num (n : Int) : Json
  | str (s : String) : Json
  | arr (elems : List Json) : Json
  | obj (fields : List (String × Json)) : Json

/-- `kube::core::ObjectMeta`.  Only `name` and `annotations` are touched by
the program; every other metadata field is carried opaquely in `rest`.
Annotation maps (`BTreeMap<String, String>`) are modelled as association
lists with unique-key insert semantics. -/
structure ObjectMeta where
  name : Option String
  annotations : Option (List (String × String))
  rest : List (String × Json)

/-- `Volume` (main.rs 118-124): a named volume; all fields other than
`name` are the flattened `data` map. -/
structure Volume where
  name : String
  data : List (String × Json)

/-- `VirtualMachineInstanceSpec` (main.rs 97-103): optional volume list
plus flattened opaque fields. -/
structure VirtualMachineInstanceSpec where
  volumes : Option (List Volume)
  data : List (String × Json)

/-- `VirtualMachineInstanceStatus` (main.rs 105-108). -/
structure VirtualMachineInstanceStatus where
  phase : String

/-- `VirtualMachineTemplate` (main.rs 91-95). -/
structure VirtualMachineTemplate where
  metadata : ObjectMeta
  spec : VirtualMachineInstanceSpec

/-- `VirtualMachineSpec` (main.rs 86-89). -/
structure VirtualMachineSpec where
  template : VirtualMachineTemplate

/-- `VirtualMachineInstance = Object<VirtualMachineInstanceSpec,
VirtualMachineInstanceStatus>` (main.rs 24). -/
structure VirtualMachineInstance where
  metadata : ObjectMeta
  spec : VirtualMachineInstanceSpec
  status : Option VirtualMachineInstanceStatus

/-- `JitRunnerInfo` (main.rs 53-59). -/
structure JitRunnerInfo where
  jitconfig : String

/-- `LegacyRunnerInfo` (main.rs 65-84). -/
structure LegacyRunnerInfo where
  name : String
  token : String
  url : String
  ephemeral : Bool
  groups : String
  labels : String

/-- `RunnerInfo` (main.rs 41-46): untagged union of the two payloads. -/
inductive RunnerInfo where
  | Jit (info : JitRunnerInfo)
  | Legacy (info : LegacyRunnerInfo)

/-- Lower-case hex digit, as emitted by `serde_json` for control escapes. -/
def hexDigit (n : Nat) : Char :=
  if n < 10 then Char.ofNat (48 + n) else Char.ofNat (87 + n)

/-- JSON string escaping as performed by `serde_json::to_string`. -/
def escapeJsonChar (c : Char) : String :=
  if c = '"' then "\\\""
  else if c = '\\' then "\\\\"
  else if c = Char.ofNat 8 then "\\b"
  else if c = Char.ofNat 9 then "\\t"
  else if c = Char.ofNat 10 then "\\n"
  else if c = Char.ofNat 12 then "\\f"
  else if c = Char.ofNat 13 then "\\r"
  else if c.toNat < 32 then
    "\\u00" ++ String.mk [hexDigit (c.toNat / 16), hexDigit (c.toNat % 16)]
  else String.mk [c]

/-- JSON escaping of a whole string. -/
def escapeJson (s : String) : String :=
  String.join (s.toList.map escapeJsonChar)

/-- A JSON string literal (quotes included). -/
def jstr (s : String) : String := "\"" ++ escapeJson s ++ "\""

/-- `serde_json::to_string(&runner_info)` (main.rs 298): serde serializes
the untagged enum as the bare struct, fields in declaration order. -/
def serializeRunnerInfo : RunnerInfo → String
  | RunnerInfo.Jit j =>
    "\x7b\"jitconfig\":" ++ jstr j.jitconfig ++ "\x7d"
  | RunnerInfo.Legacy l =>
    "\x7b\"name\":" ++ jstr l.name ++
    ",\"token\":" ++ jstr l.token ++
    ",\"url\":" ++ jstr l.url ++
    ",\"ephemeral\":" ++ (if l.ephemeral then "true" else "false") ++
    ",\"groups\":" ++ jstr l.groups ++
    ",\"labels\":" ++ jstr l.labels ++ "\x7d"

/-- First-match lookup in an annotation map (`BTreeMap::get`). -/
def lookupAnn : List (String × String) → String → Option String
  | [], _ => none
  | (k, v) :: rest, key => if k = key then some v else lookupAnn rest key

/-- `BTreeMap::insert`: overwrite the value under an existing key, or add
the entry when the key is absent. -/
def insertAnn : List (String × String) → String → String → List (String × String)
  | [], key, val => [(key, val)]
  | (k, v) :: rest, key, val =>
    if k = key then (k, val) :: rest else (k, v) :: insertAnn rest key val

/-- The `downwardAPI` volume definition built in main.rs 300-310: it
projects the runner-info annotation to `runner-info.json`. -/
def runnerInfoVolumeData : List (String × Json) :=
  [("downwardAPI", Json.obj
    [("fields", Json.arr
      [Json.obj
        [("path", Json.str RUNNER_INFO_PATH),
         ("fieldRef", Json.obj
           [("fieldPath", Json.str
             ("metadata.annotations[\x27" ++ RUNNER_INFO_ANNOTATION_KEY ++ "\x27]"))])]])])]

/-- The volume upsert of main.rs 312-322: replace the `data` of the first
volume named `runner-info` in place, or append a fresh `runner-info`
volume when none exists. -/
def upsertRunnerInfoVolume : List Volume → List (String × Json) → List Volume
  | [], d => [{ name := RUNNER_INFO_VOLUME, data := d }]
  | v :: rest, d =>
    if v.name = RUNNER_INFO_VOLUME then { v with data := d } :: rest
    else v :: upsertRunnerInfoVolume rest d

/-- Template-to-VMI composition, main.rs 292-322: copy the template
metadata, override the name, insert the serialized runner info under the
fixed annotation key, and upsert the `runner-info` volume. -/
def composeVmi (template : VirtualMachineSpec) (vmiName : String)
    (info : RunnerInfo) : VirtualMachineInstance :=
  let meta0 := template.template.metadata
  { metadata :=
      { meta0 with
        name := some vmiName,
        annotations := some (insertAnn (meta0.annotations.getD [])
          RUNNER_INFO_ANNOTATION_KEY (serializeRunnerInfo info)) },
    spec :=
      { template.template.spec with
        volumes := some (upsertRunnerInfoVolume
          (template.template.spec.volumes.getD []) runnerInfoVolumeData) },
    status := none }

/-- Rebuild a `VirtualMachineSpec` template from a composed VMI, for
stating re-merge (idempotence) properties. -/
def templateOfVmi (vmi : VirtualMachineInstance) : VirtualMachineSpec :=
  { template := { metadata := vmi.metadata, spec := vmi.spec } }

/-- The environment variables read by `run` (main.rs 225-231): each is
`none` when unset. -/
structure Env where
  github_url : Option String
  runner_repo : Option String
  runner_org : Option String

/-- The already-parsed CLI options (`Opts`, main.rs 143-192).  The
`namespace` field is called `ns` (Lean keyword); the template resource
name keeps its `vm_template` name. -/
structure Opts where
  ns : Option String
  name : String
  jitconfig : Option String
  token : Option String
  url : Option String
  ephemeral : Bool
  groups : String
  labels : String
  vm_template : String

/-- Configuration failures of the bootstrap construction.  The first two
are the `anyhow!` errors of main.rs 235-240; `tokenRequired` is the
`expect("A token is required")` failure of main.rs 253. -/
inductive ConfigError where
  /-- "RUNNER_REPO and RUNNER_ORG cannot both be non-empty" -/
  | bothOrgAndRepo
  /-- "RUNNER_REPO or RUNNER_ORG must be set" -/
  | noOrgOrRepo
  /-- "A token is required" -/
  | tokenRequired

/-- URL auto-detection, main.rs 224-247: an explicit `--url` wins;
otherwise the base is `GITHUB_URL` or `https://github.com/`, and exactly
one of `RUNNER_ORG` / `RUNNER_REPO` must be non-empty. -/
def resolveRunnerUrl (url : Option String) (env : Env) : Except ConfigError String :=
  match url with
  | some u => Except.ok u
  | none =>
    let base := env.github_url.getD "https://github.com/"
    let repo := env.runner_repo.bind (fun v => if v = "" then none else some v)
    let org := env.runner_org.bind (fun v => if v = "" then none else some v)
    match org, repo with
    | some _, some _ => Except.error ConfigError.bothOrgAndRepo
    | none, none => Except.error ConfigError.noOrgOrRepo
    | some o, none => Except.ok (base ++ o)
    | none, some r => Except.ok (base ++ r)

/-- Bootstrap payload construction, main.rs 219-259: a supplied
`jitconfig` short-circuits everything else; otherwise the URL is
resolved, then the token is demanded. -/
def buildRunnerInfo (opts : Opts) (env : Env) : Except ConfigError RunnerInfo :=
  match opts.jitconfig with
  | some jitconfig => Except.ok (RunnerInfo.Jit { jitconfig := jitconfig })
  | none =>
    match resolveRunnerUrl opts.url env with
    | Except.error e => Except.error e
    | Except.ok runnerUrl =>
      match opts.token with
      | none => Except.error ConfigError.tokenRequired
      | some token =>
        Except.ok (RunnerInfo.Legacy
          { name := opts.name
            token := token
            url := runnerUrl
            ephemeral := opts.ephemeral
            groups := opts.groups
            labels := opts.labels })

/-- `VmiOutcome` (main.rs 126-141). -/
inductive VmiOutcome where
  | Succeeded
  | Failed
  | Deleted
  | WatchInterrupted
deriving DecidableEq

/-- `VmiOutcome::is_abnormal` (main.rs 194-198). -/
def VmiOutcome.is_abnormal : VmiOutcome → Bool
  | VmiOutcome.Failed => true
  | VmiOutcome.Deleted => true
  | VmiOutcome.WatchInterrupted => true
  | VmiOutcome.Succeeded => false

/-- `kube::runtime::watcher::Event` as matched in main.rs 386-413:
`Applied` (spec calls it `Updated`) carries the object, `Deleted` (spec:
`Removed`) ends the watch, and every other event kind is ignored by the
catch-all arm. -/
inductive WEvent where
  | Applied (obj : VirtualMachineInstance)
  | Deleted (obj : VirtualMachineInstance)
  | Other

/-- One item pulled from the watch stream: `Except.error` models a stream
item that is an `Err`, which `event?` (main.rs 386) propagates. -/
abbrev StreamItem := Except String WEvent

/-- `wait_for_vmi` (main.rs 374-417) as a pure reduction of the stream:
it returns the list of logged phase transitions ("VMI has transitioned
to ...", one entry per phase change including a terminal one) together
with the result.  `last_phase` starts at `"Unknown"` at the call site
(main.rs 383); a stream that ends yields `WatchInterrupted`. -/
def wait_for_vmi : List StreamItem → String → List String × Except String VmiOutcome
  | [], _ => ([], Except.ok VmiOutcome.WatchInterrupted)
  | Except.error e :: _, _ => ([], Except.error e)
  | Except.ok (WEvent.Applied obj) :: rest, lastPhase =>
    match obj.status with
    | none => wait_for_vmi rest lastPhase
    | some status =>
      if status.phase = lastPhase then wait_for_vmi rest lastPhase
      else if status.phase = "Succeeded" then
        ([status.phase], Except.ok VmiOutcome.Succeeded)
      else if status.phase = "Failed" then
        ([status.phase], Except.ok VmiOutcome.Failed)
      else
        let r := wait_for_vmi rest status.phase
        (status.phase :: r.1, r.2)
  | Except.ok (WEvent.Deleted _) :: _, _ => ([], Except.ok VmiOutcome.Deleted)
  | Except.ok WEvent.Other :: rest, lastPhase => wait_for_vmi rest lastPhase

/-- The API calls `run` issues against the cluster, in program order. -/
inductive ApiAction where
  /-- `vmis.get_opt(&vmi_name)` (main.rs 283). -/
  | getVmi (name : String)
  /-- `delete_and_finalize(vmis, name, ...)` (main.rs 285 and 361). -/
  | deleteAndFinalize (name : String)
  /-- `vms.get(&opts.vm_template)` (main.rs 290). -/
  | getTemplate (name : String)
  /-- `vmis.create(&PostParams::default(), &vmi)` (main.rs 325). -/
  | createVmi (vmi : VirtualMachineInstance)
  /-- the watch subscription opened by `wait_for_vmi` (main.rs 375). -/
  | watch (name : String)

/-- The error that `run` returns (all are `anyhow::Error` in the source;
the constructors record which call produced it). -/
inductive RunError where
  | configError (e : ConfigError)
  | apiError (msg : String)
  | watchFailed (msg : String)
  | abnormalOutcome (o : VmiOutcome)

/-- Oracle for everything `run` observes from the outside world: client /
discovery failures, the preexisting-VMI lookup answer, call failures, the
watch stream's items, and whether a termination signal wins the race. -/
structure World where
  /-- failure of `Client::try_default` / discovery (main.rs 261-281),
  which happens before any VMI operation. -/
  setupError : Option String
  /-- failure of `vmis.get_opt` (main.rs 283). -/
  lookupError : Option String
  /-- whether `vmis.get_opt` finds a preexisting VMI (main.rs 283). -/
  preexisting : Bool
  /-- failure of the preexisting-VMI delete (main.rs 285-287). -/
  preexistingDeleteError : Option String
  /-- result of the template fetch (main.rs 290). -/
  templateResult : Except String VirtualMachineSpec
  /-- failure of `vmis.create` (main.rs 325). -/
  createError : Option String
  /-- failure of the SIGTERM/SIGINT handler registration (main.rs 328-329). -/
  sigSetupError : Option String
  /-- whether SIGTERM or SIGINT wins the `select!` race (main.rs 330-338). -/
  signalWins : Bool
  /-- the items of the watch stream consumed by `wait_for_vmi`. -/
  events : List StreamItem
  /-- failure of the cleanup delete (main.rs 361-363). -/
  cleanupDeleteError : Option String

/-- `run` (main.rs 217-371) as a pure function of the options, the
environment and the `World` oracle, returning the trace of API actions
issued plus the result.  Each early `?` return ends the trace exactly
where the source returns. -/
def run (opts : Opts) (env : Env) (w : World) : List ApiAction × Except RunError Unit :=
  match buildRunnerInfo opts env with
  | Except.error e => ([], Except.error (RunError.configError e))
  | Except.ok info =>
  match w.setupError with
  | some e => ([], Except.error (RunError.apiError e))
  | none =>
  match w.lookupError with
  | some e => ([ApiAction.getVmi opts.name], Except.error (RunError.apiError e))
  | none =>
  match w.preexisting, w.preexistingDeleteError with
  | true, some e =>
    ([ApiAction.getVmi opts.name, ApiAction.deleteAndFinalize opts.name],
     Except.error (RunError.apiError e))
  | pre, _ =>
  let acts1 := if pre
    then [ApiAction.getVmi opts.name, ApiAction.deleteAndFinalize opts.name]
    else [ApiAction.getVmi opts.name]
  match w.templateResult with
  | Except.error e =>
    (acts1 ++ [ApiAction.getTemplate opts.vm_template], Except.error (RunError.apiError e))
  | Except.ok template =>
  let vmi := composeVmi template opts.name info
  let acts2 := acts1 ++ [ApiAction.getTemplate opts.vm_template, ApiAction.createVmi vmi]
  match w.createError with
  | some e => (acts2, Except.error (RunError.apiError e))
  | none =>
  match w.sigSetupError with
  | some e => (acts2, Except.error (RunError.apiError e))
  | none =>
  let acts3 := acts2 ++ [ApiAction.watch opts.name]
  let raceResult : Except String VmiOutcome :=
    if w.signalWins then Except.ok VmiOutcome.WatchInterrupted
    else (wait_for_vmi w.events "Unknown").2
  match raceResult with
  | Except.error e => (acts3, Except.error (RunError.watchFailed e))
  | Except.ok outcome =>
  let withCleanup : List ApiAction × Except RunError Unit :=
    if outcome = VmiOutcome.Deleted then (acts3, Except.ok ())
    else
      match w.cleanupDeleteError with
      | some e =>
        (acts3 ++ [ApiAction.deleteAndFinalize opts.name], Except.error (RunError.apiError e))
      | none => (acts3 ++ [ApiAction.deleteAndFinalize opts.name], Except.ok ())
  match withCleanup with
  | (acts4, Except.error e) => (acts4, Except.error e)
  | (acts4, Except.ok _) =>
    if VmiOutcome.is_abnormal outcome then
      (acts4, Except.error (RunError.abnormalOutcome outcome))
    else (acts4, Except.ok ())

/-- `main` (main.rs 200-215): a successful `run` exits 0; any error is
printed and the process exits 1 after the fixed grace period. -/
def processExit : Except RunError Unit → Nat
  | Except.ok _ => 0
  | Except.error _ => 1

/-- Whether an action is a delete-and-await-finalization call. -/
def isDeleteAction : ApiAction → Bool
  | ApiAction.deleteAndFinalize _ => true
  | _ => false

/-- Whether an action is the VMI create call. -/
def isCreateAction : ApiAction → Bool
  | ApiAction.createVmi _ => true
  | _ => false

/-- Number of cleanup deletes in a trace: the delete-and-finalize calls
issued after the instance create (the preexisting-VMI delete precedes the
create and is not counted). -/
def cleanupDeleteCount (acts : List ApiAction) : Nat :=
  ((acts.dropWhile (fun a => ! isCreateAction a)).filter isDeleteAction).length

/-- An empty `ObjectMeta`, used for concrete test objects. -/
def emptyMeta : ObjectMeta := { name := none, annotations := none, rest := [] }

/-- A concrete VMI snapshot whose status reports the given phase. -/
def phaseVmi (p : String) : VirtualMachineInstance :=
  { metadata := emptyMeta
    spec := { volumes := none, data := [] }
    status := some { phase := p } }

/-- A watch-stream item: an `Applied` event reporting the given phase. -/
def phaseEvent (p : String) : StreamItem := Except.ok (WEvent.Applied (phaseVmi p))

/-- The phase sequence of the spec's Phase Tracker test:
`["Unknown", "Pending", "Pending", "Running", "Succeeded"]`. -/
def demoPhaseEvents : List StreamItem :=
  [phaseEvent "Unknown", phaseEvent "Pending", phaseEvent "Pending",
   phaseEvent "Running", phaseEvent "Succeeded"]

/-- A concrete unrelated volume named `data`. -/
def dataVolume : Volume := { name := "data", data := [("emptyDisk", Json.obj [])] }

/-- A concrete template with one unrelated volume and one annotation. -/
def exTemplate : VirtualMachineSpec :=
  { template :=
    { metadata :=
        { name := some "runner-template"
          annotations := some [("existing", "kept")]
          rest := [("generation", Json.num 3)] }
      spec :=
        { volumes := some [dataVolume]
          data := [("domain", Json.obj [])] } } }

/-- Concrete options: JIT config `abc`, runner name `runner`. -/
def exOpts : Opts :=
  { ns := none, name := "runner", jitconfig := some "abc", token := none
    url := none, ephemeral := false, groups := "", labels := ""
    vm_template := "runner-template" }

/-- Concrete environment with nothing set. -/
def exEnv : Env := { github_url := none, runner_repo := none, runner_org := none }

/-- A world whose watch stream fails with an error after the VMI is
created: the `?` at main.rs 341 then ends `run` with no cleanup delete. -/
def watchErrorWorld : World :=
  { setupError := none, lookupError := none, preexisting := false
    preexistingDeleteError := none, templateResult := Except.ok exTemplate
    createError := none, sigSetupError := none, signalWins := false
    events := [Except.error "watch connection lost"]
    cleanupDeleteError := none }

/-- A world in which everything works and the VMI reaches `Succeeded`. -/
def happyWorld : World :=
  { setupError := none, lookupError := none, preexisting := false
    preexistingDeleteError := none, templateResult := Except.ok exTemplate
    createError := none, sigSetupError := none, signalWins := false
    events := demoPhaseEvents
    cleanupDeleteError := none }

/-- A world with a preexisting VMI under the runner's name. -/
def preexistingWorld : World :=
  { happyWorld with preexisting := true }

/-- A world in which something else force-deletes the VMI mid-watch. -/
def deletedWorld : World :=
  { happyWorld with
    events := [phaseEvent "Running", Except.ok (WEvent.Deleted (phaseVmi "Running"))] }

/-- A world in which a termination signal wins the three-way race. -/
def signalWorld : World :=
  { happyWorld with signalWins := true }

/-! ## Helper lemmas -/

theorem lookupAnn_insertAnn_self (m : List (String × String)) (k v : String) :
    lookupAnn (insertAnn m k v) k = some v := by
  induction m with
  | nil => simp [insertAnn, lookupAnn]
  | cons hd tl ih =>
    obtain ⟨k0, v0⟩ := hd
    by_cases hk : k0 = k
    · simp [insertAnn, hk, lookupAnn]
    · simp [insertAnn, hk, lookupAnn, ih]

theorem lookupAnn_insertAnn_other (m : List (String × String)) (k v k' : String)
    (h : k' ≠ k) : lookupAnn (insertAnn m k v) k' = lookupAnn m k' := by
  induction m with
  | nil => simp [insertAnn, lookupAnn, Ne.symm h]
  | cons hd tl ih =>
    obtain ⟨k0, v0⟩ := hd
    by_cases hk : k0 = k
    · subst hk
      simp [insertAnn, lookupAnn, Ne.symm h]
    · by_cases hk' : k0 = k'
      · simp [insertAnn, lookupAnn, hk, hk', h]
      · simp [insertAnn, lookupAnn, hk, hk', ih]

theorem upsert_of_no_runner_info (vs : List Volume) (d : List (String × Json))
    (h : ∀ v ∈ vs, v.name ≠ RUNNER_INFO_VOLUME) :
    upsertRunnerInfoVolume vs d = vs ++ [{ name := RUNNER_INFO_VOLUME, data := d }] := by
  induction vs with
  | nil => simp [upsertRunnerInfoVolume]
  | cons v tl ih =>
    have hv : v.name ≠ RUNNER_INFO_VOLUME := h v (List.mem_cons_self v tl)
    simp [upsertRunnerInfoVolume, hv,
      ih (fun u hu => h u (List.mem_cons_of_mem v hu))]

theorem upsert_replaces_first (as bs : List Volume) (v : Volume)
    (d : List (String × Json)) (hv : v.name = RUNNER_INFO_VOLUME)
    (ha : ∀ a ∈ as, a.name ≠ RUNNER_INFO_VOLUME) :
    upsertRunnerInfoVolume (as ++ v :: bs) d = as ++ { v with data := d } :: bs := by
  induction as with
  | nil => simp [upsertRunnerInfoVolume, hv]
  | cons a tl ih =>
    have hA : a.name ≠ RUNNER_INFO_VOLUME := ha a (List.mem_cons_self a tl)
    simp [upsertRunnerInfoVolume, hA,
      ih (fun u hu => ha u (List.mem_cons_of_mem a hu))]

theorem upsert_idem (vs : List Volume) (d : List (String × Json)) :
    upsertRunnerInfoVolume (upsertRunnerInfoVolume vs d) d = upsertRunnerInfoVolume vs d := by
  induction vs with
  | nil => simp [upsertRunnerInfoVolume]
  | cons v tl ih =>
    by_cases hv : v.name = RUNNER_INFO_VOLUME
    · simp [upsertRunnerInfoVolume, hv]
    · simp [upsertRunnerInfoVolume, hv, ih]

theorem upsert_filter_ne (vs : List Volume) (d : List (String × Json)) :
    (upsertRunnerInfoVolume vs d).filter (fun v => decide (v.name ≠ RUNNER_INFO_VOLUME)) =
      vs.filter (fun v => decide (v.name ≠ RUNNER_INFO_VOLUME)) := by
  induction vs with
  | nil => simp [upsertRunnerInfoVolume, List.filter]
  | cons v tl ih =>
    by_cases hv : v.name = RUNNER_INFO_VOLUME
    · simp [upsertRunnerInfoVolume, hv, List.filter]
    · simp only [upsertRunnerInfoVolume, hv, if_false, ite_false]
      simp [List.filter, hv]
      simpa using ih

/-! ## Claim theorems -/

/-- Claim C3: for every fetched template, the composed instance spec
copies the template metadata with the name overridden to the runner name,
carries the serialized bootstrap payload under the fixed annotation key
(other annotation keys unchanged), and its volume list equals the
template's with the first `runner-info` volume replaced in place when one
exists, or a `runner-info` volume appended when absent, all other volumes
untouched and in their original relative order. -/
theorem c3_template_merge (t : VirtualMachineSpec) (n : String) (info : RunnerInfo) :
    (composeVmi t n info).metadata.name = some n
    ∧ (composeVmi t n info).metadata.rest = t.template.metadata.rest
    ∧ (∃ m, (composeVmi t n info).metadata.annotations = some m
        ∧ lookupAnn m RUNNER_INFO_ANNOTATION_KEY = some (serializeRunnerInfo info)
        ∧ ∀ k, k ≠ RUNNER_INFO_ANNOTATION_KEY →
            lookupAnn m k = lookupAnn (t.template.metadata.annotations.getD []) k)
    ∧ (composeVmi t n info).spec.data = t.template.spec.data
    ∧ ((∀ v ∈ t.template.spec.volumes.getD [], v.name ≠ RUNNER_INFO_VOLUME) →
        (composeVmi t n info).spec.volumes =
          some (t.template.spec.volumes.getD []
            ++ [{ name := RUNNER_INFO_VOLUME, data := runnerInfoVolumeData }]))
    ∧ (∀ as v bs, t.template.spec.volumes.getD [] = as ++ v :: bs →
        v.name = RUNNER_INFO_VOLUME →
        (∀ a ∈ as, a.name ≠ RUNNER_INFO_VOLUME) →
        (composeVmi t n info).spec.volumes =
          some (as ++ { v with data := runnerInfoVolumeData } :: bs)) := by
  refine ⟨rfl, rfl,
    ⟨insertAnn (t.template.metadata.annotations.getD [])
        RUNNER_INFO_ANNOTATION_KEY (serializeRunnerInfo info), rfl,
      lookupAnn_insertAnn_self _ _ _,
      fun k hk => lookupAnn_insertAnn_other _ _ _ _ hk⟩,
    rfl, fun h => ?_, fun as v bs heq hv ha => ?_⟩
  · simp [composeVmi, upsert_of_no_runner_info _ _ h]
  · simp [composeVmi, heq, upsert_replaces_first as bs v _ hv ha]

/-- Claim C3 witness: composing the concrete template (one unrelated
volume `data`, no `runner-info` volume) with the JIT payload appends the
`runner-info` volume after `data`. -/
theorem c3_template_merge_witness :
    (∀ v ∈ exTemplate.template.spec.volumes.getD [], v.name ≠ RUNNER_INFO_VOLUME)
    ∧ (composeVmi exTemplate "runner" (RunnerInfo.Jit { jitconfig := "abc" })).spec.volumes =
        some [dataVolume, { name := RUNNER_INFO_VOLUME, data := runnerInfoVolumeData }] := by
  have h : ∀ v ∈ exTemplate.template.spec.volumes.getD [], v.name ≠ RUNNER_INFO_VOLUME := by
    decide
  exact ⟨h,
    (c3_template_merge exTemplate "runner" (RunnerInfo.Jit { jitconfig := "abc" })).2.2.2.2.1 h⟩

/-- Claim C9: the `runner-info` volume upsert is idempotent — re-applying
it to a volume list that already contains a `runner-info` volume (such as
the output of a previous merge) replaces only that entry, yields the same
list, and preserves all unrelated volumes and their relative order; at
the merge level, re-composing from an already-composed VMI leaves the
volume list unchanged. -/
theorem c9_upsert_idempotent :
    (∀ vs d, upsertRunnerInfoVolume (upsertRunnerInfoVolume vs d) d
      = upsertRunnerInfoVolume vs d)
    ∧ (∀ vs d, (upsertRunnerInfoVolume vs d).filter
          (fun v => decide (v.name ≠ RUNNER_INFO_VOLUME))
        = vs.filter (fun v => decide (v.name ≠ RUNNER_INFO_VOLUME)))
    ∧ (∀ as v bs d, v.name = RUNNER_INFO_VOLUME →
        (∀ a ∈ as, a.name ≠ RUNNER_INFO_VOLUME) →
        upsertRunnerInfoVolume (as ++ v :: bs) d = as ++ { v with data := d } :: bs)
    ∧ (∀ t n info,
        (composeVmi (templateOfVmi (composeVmi t n info)) n info).spec.volumes
          = (composeVmi t n info).spec.volumes) := by
  refine ⟨upsert_idem, upsert_filter_ne,
    fun as v bs d hv ha => upsert_replaces_first as bs v d hv ha,
    fun t n info => ?_⟩
  simp [composeVmi, templateOfVmi, upsert_idem]

/-- Claim C9 witness: re-applying the upsert to a list that already holds
a `runner-info` volume (after `data`) replaces only that entry. -/
theorem c9_upsert_idempotent_witness :
    upsertRunnerInfoVolume
        [dataVolume, { name := RUNNER_INFO_VOLUME, data := [] }] runnerInfoVolumeData
      = [dataVolume, { name := RUNNER_INFO_VOLUME, data := runnerInfoVolumeData }] := by
  have ha : ∀ a ∈ [dataVolume], a.name ≠ RUNNER_INFO_VOLUME := by decide
  exact c9_upsert_idempotent.2.2.1 [dataVolume]
    { name := RUNNER_INFO_VOLUME, data := [] } [] runnerInfoVolumeData rfl ha

theorem wait_for_vmi_append_deleted (pre : List StreamItem) :
    ∀ (lp : String) (obj : VirtualMachineInstance) (rest : List StreamItem),
    (wait_for_vmi pre lp).2 = Except.ok VmiOutcome.WatchInterrupted →
    wait_for_vmi (pre ++ Except.ok (WEvent.Deleted obj) :: rest) lp
      = ((wait_for_vmi pre lp).1, Except.ok VmiOutcome.Deleted) := by
  induction pre with
  | nil =>
    intro lp obj rest _
    simp [wait_for_vmi]
  | cons item tl ih =>
    intro lp obj rest h
    cases item with
    | error e => simp [wait_for_vmi] at h
    | ok ev =>
      cases ev with
      | Deleted o2 => simp [wait_for_vmi] at h
      | Other =>
        simp only [wait_for_vmi, List.cons_append] at h ⊢
        exact ih lp obj rest h
      | Applied o2 =>
        rcases hst : o2.status with _ | st
        · simp only [wait_for_vmi, hst, List.cons_append] at h ⊢
          exact ih lp obj rest h
        · by_cases h1 : st.phase = lp
          · simp only [wait_for_vmi, hst, h1, if_true, List.cons_append] at h ⊢
            exact ih lp obj rest h
          · by_cases h2 : st.phase = "Succeeded"
            · rw [h2] at h1
              simp [wait_for_vmi, hst, h1, h2] at h
            · by_cases h3 : st.phase = "Failed"
              · rw [h3] at h1
                simp [wait_for_vmi, hst, h1, h2, h3] at h
              · simp only [wait_for_vmi, hst, h1, h2, h3, if_false,
                  ite_false, List.cons_append] at h ⊢
                simp [h1, h2, h3, ih st.phase obj rest h]

/-- Claim C2: the Phase Tracker keeps a last-seen phase (initially
`"Unknown"` at the call site); an `Applied` event with no status or an
unchanged phase changes nothing; a differing phase is recorded as a
transition, and `"Succeeded"` / `"Failed"` immediately return that
terminal outcome ignoring the rest of the stream; the phase sequence
Unknown, Pending, Pending, Running, Succeeded yields exactly the
transitions Pending, Running, Succeeded and the single terminal result
`Succeeded`. -/
theorem c2_phase_tracker :
    (∀ (rest : List StreamItem) (obj : VirtualMachineInstance) (lp : String),
      obj.status = none →
      wait_for_vmi (Except.ok (WEvent.Applied obj) :: rest) lp = wait_for_vmi rest lp)
    ∧ (∀ (rest : List StreamItem) (obj : VirtualMachineInstance) (lp : String)
        (st : VirtualMachineInstanceStatus), obj.status = some st → st.phase = lp →
        wait_for_vmi (Except.ok (WEvent.Applied obj) :: rest) lp = wait_for_vmi rest lp)
    ∧ (∀ (rest : List StreamItem) (obj : VirtualMachineInstance) (lp : String)
        (st : VirtualMachineInstanceStatus), obj.status = some st → st.phase ≠ lp →
        st.phase = "Succeeded" →
        wait_for_vmi (Except.ok (WEvent.Applied obj) :: rest) lp
          = (["Succeeded"], Except.ok VmiOutcome.Succeeded))
    ∧ (∀ (rest : List StreamItem) (obj : VirtualMachineInstance) (lp : String)
        (st : VirtualMachineInstanceStatus), obj.status = some st → st.phase ≠ lp →
        st.phase = "Failed" →
        wait_for_vmi (Except.ok (WEvent.Applied obj) :: rest) lp
          = (["Failed"], Except.ok VmiOutcome.Failed))
    ∧ (∀ (rest : List StreamItem) (obj : VirtualMachineInstance) (lp : String)
        (st : VirtualMachineInstanceStatus), obj.status = some st → st.phase ≠ lp →
        st.phase ≠ "Succeeded" → st.phase ≠ "Failed" →
        wait_for_vmi (Except.ok (WEvent.Applied obj) :: rest) lp
          = (st.phase :: (wait_for_vmi rest st.phase).1, (wait_for_vmi rest st.phase).2))
    ∧ wait_for_vmi demoPhaseEvents "Unknown"
        = (["Pending", "Running", "Succeeded"], Except.ok VmiOutcome.Succeeded) := by
  refine ⟨?_, ?_, ?_, ?_, ?_, rfl⟩
  · intro rest obj lp hst
    simp [wait_for_vmi, hst]
  · intro rest obj lp st hst h1
    simp [wait_for_vmi, hst, h1]
  · intro rest obj lp st hst h1 h2
    rw [h2] at h1
    simp [wait_for_vmi, hst, h1, h2]
  · intro rest obj lp st hst h1 h2
    rw [h2] at h1
    simp [wait_for_vmi, hst, h1, h2]
  · intro rest obj lp st hst h1 h2 h3
    simp [wait_for_vmi, hst, h1, h2, h3]

/-- Claim C2 witness: an `Applied` event whose phase `"Succeeded"`
differs from the last-seen `"Unknown"` immediately yields the terminal
`Succeeded` outcome. -/
theorem c2_phase_tracker_witness :
    wait_for_vmi [phaseEvent "Succeeded"] "Unknown"
      = (["Succeeded"], Except.ok VmiOutcome.Succeeded) :=
  c2_phase_tracker.2.2.1 [] (phaseVmi "Succeeded") "Unknown"
    { phase := "Succeeded" } rfl (by decide) rfl

/-- Claim C5: a `Deleted` (spec: `Removed`) watch event makes the tracker
return `Deleted` immediately, ignoring every later stream item — both at
the head of the stream and after any prefix the tracker would consume
without reaching a terminal event — and a stream that ends without a
terminal event yields `WatchInterrupted` (spec: `Interrupted`). -/
theorem c5_removed_and_stream_end :
    (∀ (obj : VirtualMachineInstance) (rest : List StreamItem) (lp : String),
      wait_for_vmi (Except.ok (WEvent.Deleted obj) :: rest) lp
        = ([], Except.ok VmiOutcome.Deleted))
    ∧ (∀ (pre rest : List StreamItem) (obj : VirtualMachineInstance) (lp : String),
        (wait_for_vmi pre lp).2 = Except.ok VmiOutcome.WatchInterrupted →
        wait_for_vmi (pre ++ Except.ok (WEvent.Deleted obj) :: rest) lp
          = ((wait_for_vmi pre lp).1, Except.ok VmiOutcome.Deleted))
    ∧ (∀ lp, wait_for_vmi [] lp = ([], Except.ok VmiOutcome.WatchInterrupted)) :=
  ⟨fun _ _ _ => rfl,
   fun pre rest obj lp h => wait_for_vmi_append_deleted pre lp obj rest h,
   fun _ => rfl⟩

/-- Claim C5 witness: after a non-terminal `Pending` transition, a
`Deleted` event returns `Deleted` and the later `Succeeded` event is
never consumed. -/
theorem c5_removed_witness :
    wait_for_vmi (phaseEvent "Pending" :: Except.ok (WEvent.Deleted (phaseVmi "Pending"))
        :: [phaseEvent "Succeeded"]) "Unknown"
      = (["Pending"], Except.ok VmiOutcome.Deleted) :=
  c5_removed_and_stream_end.2.1 [phaseEvent "Pending"] [phaseEvent "Succeeded"]
    (phaseVmi "Pending") "Unknown" rfl

/-- An identifier environment variable that is unset or set to the empty
string (both are treated alike by main.rs 226-231). -/
def emptyOrUnset (v : Option String) : Prop := v = none ∨ v = some ""

/-- Whether the bootstrap construction failed. -/
def isConfigFailureB : Except ConfigError RunnerInfo → Bool
  | Except.error _ => true
  | Except.ok _ => false

/-- Concrete legacy options: no JIT config, explicit URL, but no token. -/
def legacyNoTokenOpts : Opts :=
  { exOpts with jitconfig := none, url := some "https://github.com/acme" }

/-- Claim C7: with no explicit URL, resolution fails when org and repo
are both empty-or-unset and when both are non-empty; with exactly one
non-empty identifier it returns the base (the fixed public host unless
overridden by `GITHUB_URL`) concatenated with that identifier; an
explicit URL is used as-is. -/
theorem c7_url_resolution :
    (∀ (env : Env) (u : String), resolveRunnerUrl (some u) env = Except.ok u)
    ∧ (∀ env : Env, emptyOrUnset env.runner_org → emptyOrUnset env.runner_repo →
        resolveRunnerUrl none env = Except.error ConfigError.noOrgOrRepo)
    ∧ (∀ (env : Env) (o r : String), env.runner_org = some o → o ≠ "" →
        env.runner_repo = some r → r ≠ "" →
        resolveRunnerUrl none env = Except.error ConfigError.bothOrgAndRepo)
    ∧ (∀ (env : Env) (o : String), env.runner_org = some o → o ≠ "" →
        emptyOrUnset env.runner_repo →
        resolveRunnerUrl none env
          = Except.ok (env.github_url.getD "https://github.com/" ++ o))
    ∧ (∀ (env : Env) (r : String), env.runner_repo = some r → r ≠ "" →
        emptyOrUnset env.runner_org →
        resolveRunnerUrl none env
          = Except.ok (env.github_url.getD "https://github.com/" ++ r)) := by
  refine ⟨fun env u => rfl, ?_, ?_, ?_, ?_⟩
  · intro env ho hr
    rcases ho with ho | ho <;> rcases hr with hr | hr <;>
      simp [resolveRunnerUrl, ho, hr]
  · intro env o r ho hone hr hrne
    simp [resolveRunnerUrl, ho, hone, hr, hrne]
  · intro env o ho hone hr
    rcases hr with hr | hr <;> simp [resolveRunnerUrl, ho, hone, hr]
  · intro env r hr hrne ho
    rcases ho with ho | ho <;> simp [resolveRunnerUrl, hr, hrne, ho]

/-- Claim C7 witness: org `acme`, repo unset, no `GITHUB_URL` override,
no explicit URL resolves to the public base plus `acme`. -/
theorem c7_url_resolution_witness :
    resolveRunnerUrl none
        { github_url := none, runner_repo := none, runner_org := some "acme" }
      = Except.ok ("https://github.com/" ++ "acme") :=
  c7_url_resolution.2.2.2.1
    { github_url := none, runner_repo := none, runner_org := some "acme" }
    "acme" rfl (by decide) (Or.inl rfl)

/-- Claim C8: in legacy mode (no JIT config) a missing registration token
makes the bootstrap construction fail, and the failure is a
`ConfigError` (either the token demand of main.rs 253 or, when URL
resolution fails first, that configuration error). -/
theorem c8_legacy_missing_token (opts : Opts) (env : Env)
    (hjit : opts.jitconfig = none) (htok : opts.token = none) :
    isConfigFailureB (buildRunnerInfo opts env) = true
    ∧ ∃ e : ConfigError, buildRunnerInfo opts env = Except.error e := by
  cases hres : resolveRunnerUrl opts.url env with
  | error e =>
    exact ⟨by simp [buildRunnerInfo, hjit, hres, isConfigFailureB],
      ⟨e, by simp [buildRunnerInfo, hjit, hres]⟩⟩
  | ok u =>
    exact ⟨by simp [buildRunnerInfo, hjit, hres, htok, isConfigFailureB],
      ⟨ConfigError.tokenRequired, by simp [buildRunnerInfo, hjit, hres, htok]⟩⟩

/-- Claim C8 witness: legacy options with an explicit URL but no token
fail the bootstrap construction. -/
theorem c8_legacy_missing_token_witness :
    isConfigFailureB (buildRunnerInfo legacyNoTokenOpts exEnv) = true :=
  (c8_legacy_missing_token legacyNoTokenOpts exEnv rfl rfl).1

/-- Claim C10: whenever a JIT config value is supplied, the bootstrap
payload is the `Jit` variant built from that value alone and the
construction never fails, whatever the token, URL, ephemeral, groups and
labels options and the org/repo environment values are. -/
theorem c10_jit_short_circuit (opts : Opts) (env : Env) (j : String)
    (h : opts.jitconfig = some j) :
    buildRunnerInfo opts env = Except.ok (RunnerInfo.Jit { jitconfig := j }) := by
  simp [buildRunnerInfo, h]

/-- Claim C10 witness: the concrete JIT options build the `Jit` payload
from `abc` even though no token, URL, org or repo is configured. -/
theorem c10_jit_short_circuit_witness :
    buildRunnerInfo exOpts exEnv = Except.ok (RunnerInfo.Jit { jitconfig := "abc" }) :=
  c10_jit_short_circuit exOpts exEnv "abc" rfl

/-- Claim C4: when a preexisting instance with the runner's name is found
at start, the first two API actions of the run are the lookup and the
delete-and-await-finalization of that instance, and any create call
occurs strictly after them — never while the finalization is pending. -/
theorem c4_preexisting_delete_before_create (opts : Opts) (env : Env) (w : World)
    (info : RunnerInfo) (hinfo : buildRunnerInfo opts env = Except.ok info)
    (hsetup : w.setupError = none) (hlookup : w.lookupError = none)
    (hpre : w.preexisting = true) :
    (run opts env w).1.take 2
        = [ApiAction.getVmi opts.name, ApiAction.deleteAndFinalize opts.name]
    ∧ ∀ v, ApiAction.createVmi v ∈ (run opts env w).1 →
        ApiAction.createVmi v ∈ (run opts env w).1.drop 2 := by
  cases hde : w.preexistingDeleteError with
  | some e =>
    refine ⟨?_, ?_⟩ <;> simp [run, hinfo, hsetup, hlookup, hpre, hde]
  | none =>
    cases ht : w.templateResult with
    | error e =>
      refine ⟨?_, ?_⟩ <;> simp [run, hinfo, hsetup, hlookup, hpre, hde, ht]
    | ok t =>
      cases hce : w.createError with
      | some e =>
        refine ⟨?_, ?_⟩ <;> simp [run, hinfo, hsetup, hlookup, hpre, hde, ht, hce]
      | none =>
        cases hse : w.sigSetupError with
        | some e =>
          refine ⟨?_, ?_⟩ <;> simp [run, hinfo, hsetup, hlookup, hpre, hde, ht, hce, hse]
        | none =>
          cases hsig : w.signalWins with
          | true =>
            cases hcl : w.cleanupDeleteError with
            | some e =>
              refine ⟨?_, ?_⟩ <;>
                simp [run, hinfo, hsetup, hlookup, hpre, hde, ht, hce, hse, hsig, hcl,
                  VmiOutcome.is_abnormal]
            | none =>
              refine ⟨?_, ?_⟩ <;>
                simp [run, hinfo, hsetup, hlookup, hpre, hde, ht, hce, hse, hsig, hcl,
                  VmiOutcome.is_abnormal]
          | false =>
            cases hwf : (wait_for_vmi w.events "Unknown").2 with
            | error e =>
              refine ⟨?_, ?_⟩ <;>
                simp [run, hinfo, hsetup, hlookup, hpre, hde, ht, hce, hse, hsig, hwf]
            | ok o =>
              cases o <;> cases hcl : w.cleanupDeleteError <;>
                (refine ⟨?_, ?_⟩ <;>
                  simp [run, hinfo, hsetup, hlookup, hpre, hde, ht, hce, hse, hsig, hwf,
                    hcl, VmiOutcome.is_abnormal])

/-- Claim C4 witness: in the concrete world with a preexisting VMI, the
run's first two actions are the lookup and the delete-and-finalize. -/
theorem c4_preexisting_delete_before_create_witness :
    (run exOpts exEnv preexistingWorld).1.take 2
      = [ApiAction.getVmi "runner", ApiAction.deleteAndFinalize "runner"] :=
  (c4_preexisting_delete_before_create exOpts exEnv preexistingWorld
    (RunnerInfo.Jit { jitconfig := "abc" }) rfl rfl rfl rfl).1

/-- Claim C6: for a run that reaches the Watching state, a termination
signal winning the three-way race makes the outcome `WatchInterrupted`
(spec: `Interrupted`) and the run fail carrying that outcome (exit code
1); when the Phase Tracker wins with `Succeeded`, the run succeeds (exit
code 0); any other tracker outcome makes the run fail carrying the
outcome value (exit code 1, hence non-zero). -/
theorem c6_outcome_mapping (opts : Opts) (env : Env) (w : World) (info : RunnerInfo)
    (t : VirtualMachineSpec)
    (hinfo : buildRunnerInfo opts env = Except.ok info)
    (hsetup : w.setupError = none) (hlookup : w.lookupError = none)
    (hde : w.preexistingDeleteError = none)
    (ht : w.templateResult = Except.ok t)
    (hce : w.createError = none) (hse : w.sigSetupError = none)
    (hcl : w.cleanupDeleteError = none) :
    (w.signalWins = true →
      (run opts env w).2 = Except.error (RunError.abnormalOutcome VmiOutcome.WatchInterrupted)
      ∧ processExit (run opts env w).2 = 1)
    ∧ (∀ o, w.signalWins = false →
        (wait_for_vmi w.events "Unknown").2 = Except.ok o →
        ((o = VmiOutcome.Succeeded → (run opts env w).2 = Except.ok ()
            ∧ processExit (run opts env w).2 = 0)
         ∧ (o ≠ VmiOutcome.Succeeded →
            (run opts env w).2 = Except.error (RunError.abnormalOutcome o)
            ∧ processExit (run opts env w).2 = 1))) := by
  refine ⟨fun hsig => ?_, fun o hsig hwf => ⟨fun ho => ?_, fun ho => ?_⟩⟩
  · cases hpre : w.preexisting <;>
      (refine ⟨?_, ?_⟩ <;>
        simp [run, processExit, hinfo, hsetup, hlookup, hde, ht, hce, hse, hcl, hsig,
          hpre, VmiOutcome.is_abnormal])
  · subst ho
    cases hpre : w.preexisting <;>
      (refine ⟨?_, ?_⟩ <;>
        simp [run, processExit, hinfo, hsetup, hlookup, hde, ht, hce, hse, hcl, hsig,
          hwf, hpre, VmiOutcome.is_abnormal])
  · cases o with
    | Succeeded => exact absurd rfl ho
    | Failed =>
      cases hpre : w.preexisting <;>
        (refine ⟨?_, ?_⟩ <;>
          simp [run, processExit, hinfo, hsetup, hlookup, hde, ht, hce, hse, hcl, hsig,
            hwf, hpre, VmiOutcome.is_abnormal])
    | Deleted =>
      cases hpre : w.preexisting <;>
        (refine ⟨?_, ?_⟩ <;>
          simp [run, processExit, hinfo, hsetup, hlookup, hde, ht, hce, hse, hcl, hsig,
            hwf, hpre, VmiOutcome.is_abnormal])
    | WatchInterrupted =>
      cases hpre : w.preexisting <;>
        (refine ⟨?_, ?_⟩ <;>
          simp [run, processExit, hinfo, hsetup, hlookup, hde, ht, hce, hse, hcl, hsig,
            hwf, hpre, VmiOutcome.is_abnormal])

/-- Claim C6 witness: in the concrete happy world the VMI succeeds and the
process result is success with exit code 0. -/
theorem c6_outcome_mapping_witness :
    processExit (run exOpts exEnv happyWorld).2 = 0 :=
  (((c6_outcome_mapping exOpts exEnv happyWorld
      (RunnerInfo.Jit { jitconfig := "abc" }) exTemplate
      rfl rfl rfl rfl rfl rfl rfl rfl).2
    VmiOutcome.Succeeded rfl rfl).1 rfl).2

set_option maxHeartbeats 2000000 in
/-- Claim C1 (amended): the cleanup delete-and-await-finalization is
issued at most once per run (in every world); for a run that reaches the
race, when the race resolves to an outcome the cleanup delete is issued
exactly when the outcome is not `Deleted` (a signal win gives
`WatchInterrupted`, hence a cleanup delete); but when consuming the watch
stream fails, the run ends with that error without issuing the cleanup
delete. -/
theorem c1_cleanup_at_most_once :
    (∀ (opts : Opts) (env : Env) (w : World),
      cleanupDeleteCount (run opts env w).1 ≤ 1)
    ∧ (∀ (opts : Opts) (env : Env) (w : World) (info : RunnerInfo)
        (t : VirtualMachineSpec),
        buildRunnerInfo opts env = Except.ok info →
        w.setupError = none → w.lookupError = none →
        w.preexistingDeleteError = none →
        w.templateResult = Except.ok t →
        w.createError = none → w.sigSetupError = none →
        ((w.signalWins = true → cleanupDeleteCount (run opts env w).1 = 1)
        ∧ (∀ o, w.signalWins = false →
            (wait_for_vmi w.events "Unknown").2 = Except.ok o →
            cleanupDeleteCount (run opts env w).1
              = (if o = VmiOutcome.Deleted then 0 else 1))
        ∧ (∀ e, w.signalWins = false →
            (wait_for_vmi w.events "Unknown").2 = Except.error e →
            cleanupDeleteCount (run opts env w).1 = 0
            ∧ (run opts env w).2 = Except.error (RunError.watchFailed e)))) := by
  constructor
  · intro opts env w
    rcases w with ⟨setup, lookupE, pre, predel, templ, cerr, serr, sig, evs, clerr⟩
    cases hb : buildRunnerInfo opts env with
    | error e => simp [run, hb, cleanupDeleteCount, List.dropWhile, List.filter]
    | ok info =>
    cases setup with
    | some e => simp [run, hb, cleanupDeleteCount, List.dropWhile, List.filter]
    | none =>
    cases lookupE with
    | some e =>
      simp [run, hb, cleanupDeleteCount, isCreateAction, List.dropWhile, List.filter]
    | none =>
    cases pre with
    | true =>
      cases predel with
      | some e =>
        simp [run, hb, cleanupDeleteCount, isCreateAction, List.dropWhile, List.filter]
      | none =>
        cases templ <;> cases cerr <;> cases serr <;> cases sig <;> cases clerr <;>
          (try rcases hwf : (wait_for_vmi evs "Unknown").2 with e | o) <;> (try cases o) <;>
          simp [run, hb, hwf, cleanupDeleteCount, isCreateAction, isDeleteAction,
            VmiOutcome.is_abnormal, List.dropWhile, List.filter]
    | false =>
      cases templ <;> cases cerr <;> cases serr <;> cases sig <;> cases clerr <;>
        (try rcases hwf : (wait_for_vmi evs "Unknown").2 with e | o) <;> (try cases o) <;>
        simp [run, hb, hwf, cleanupDeleteCount, isCreateAction, isDeleteAction,
          VmiOutcome.is_abnormal, List.dropWhile, List.filter]
  · intro opts env w info t hinfo hsetup hlookup hde ht hce hse
    refine ⟨fun hsig => ?_, fun o hsig hwf => ?_, fun e hsig hwf => ?_⟩
    · cases hpre : w.preexisting <;> cases hcl : w.cleanupDeleteError <;>
        simp [run, hinfo, hsetup, hlookup, hde, ht, hce, hse, hsig, hpre, hcl,
          cleanupDeleteCount, isCreateAction, isDeleteAction, VmiOutcome.is_abnormal,
          List.dropWhile, List.filter]
    · cases o <;> cases hpre : w.preexisting <;> cases hcl : w.cleanupDeleteError <;>
        simp [run, hinfo, hsetup, hlookup, hde, ht, hce, hse, hsig, hwf, hpre, hcl,
          cleanupDeleteCount, isCreateAction, isDeleteAction, VmiOutcome.is_abnormal,
          List.dropWhile, List.filter]
    · cases hpre : w.preexisting <;>
        (refine ⟨?_, ?_⟩ <;>
          simp [run, hinfo, hsetup, hlookup, hde, ht, hce, hse, hsig, hwf, hpre,
            cleanupDeleteCount, isCreateAction, isDeleteAction, List.dropWhile,
            List.filter])

/-- Claim C1 counterexample: in the concrete world whose watch stream
yields an error after the VMI is created, the run terminates with that
error (the `?` at main.rs 341), the outcome is not `Deleted`, and yet no
cleanup delete is ever issued — refuting the claim that every
non-`Deleted` termination after create issues the cleanup delete. -/
theorem c1_cleanup_counterexample :
    ApiAction.createVmi (composeVmi exTemplate "runner" (RunnerInfo.Jit { jitconfig := "abc" }))
        ∈ (run exOpts exEnv watchErrorWorld).1
    ∧ cleanupDeleteCount (run exOpts exEnv watchErrorWorld).1 = 0
    ∧ (run exOpts exEnv watchErrorWorld).2
        = Except.error (RunError.watchFailed "watch connection lost") := by
  refine ⟨?_, rfl, rfl⟩
  have htrace : (run exOpts exEnv watchErrorWorld).1
      = [ApiAction.getVmi "runner", ApiAction.getTemplate "runner-template",
         ApiAction.createVmi (composeVmi exTemplate "runner"
           (RunnerInfo.Jit { jitconfig := "abc" })),
         ApiAction.watch "runner"] := rfl
  rw [htrace]
  exact List.mem_cons_of_mem _ (List.mem_cons_of_mem _ (List.mem_cons_self _ _))

/-- Claim C1 witness: in the concrete happy world (tracker outcome
`Succeeded`, not `Deleted`) exactly one cleanup delete is issued. -/
theorem c1_cleanup_at_most_once_witness :
    cleanupDeleteCount (run exOpts exEnv happyWorld).1 = 1 := by
  have h := ((c1_cleanup_at_most_once.2 exOpts exEnv happyWorld
      (RunnerInfo.Jit { jitconfig := "abc" }) exTemplate
      rfl rfl rfl rfl rfl rfl rfl).2.1 VmiOutcome.Succeeded rfl rfl)
  simpa using h
